import Mathlib

/-!
Verification of the bitcart `api/views.py` authorization and live-notification
layer, as a shallow embedding in Lean 4.

The embedding follows `src/api/views.py`:
  * the capability-token creation endpoint `create_token` (lines 587-622),
  * the two websocket session managers `WalletNotify` (lines 678-716) and
    `InvoiceNotify` (lines 719-754), with their `on_connect`, `poll_subs`
    and `on_disconnect` handlers,
  * the constraint-violation translation of `create_product` (lines 161-197)
    and `patch_token` (lines 543-566).

External collaborators that are not part of the shown source
(`utils.AuthDependency`, `utils.make_subscriber`, the redis pub/sub channel)
are modelled abstractly, as documented on each definition.
-/

namespace BitcartViews

/-! ## Data model -/

/-- An account row: `models.User` with the fields the embedded code reads. -/
structure User where
  id : Nat
  isSuperuser : Bool
  deriving DecidableEq, Repr

/-- A capability token row: `models.Token` with the fields the embedded code
reads (`id` is the bearer secret, `permissions` the scope list). -/
structure Token where
  id : String
  userId : Nat
  permissions : List String
  deriving DecidableEq, Repr

/-- A wallet row: `models.Wallet` with its owner foreign key. -/
structure Wallet where
  id : Nat
  userId : Nat
  deriving DecidableEq, Repr

/-- A store row (only its id matters for the ownership-chain joins). -/
structure Store where
  id : Nat
  deriving DecidableEq, Repr

/-- A row of the `WalletxStore` link table. -/
structure WalletxStore where
  walletId : Nat
  storeId : Nat
  deriving DecidableEq, Repr

/-- An invoice row: `models.Invoice` with its store foreign key and status. -/
structure Invoice where
  id : Nat
  storeId : Nat
  status : String
  deriving DecidableEq, Repr

/-- A JSON object message sent over the websocket (`send_json` payload);
string-valued fields suffice for every message the embedded code sends. -/
structure JsonMsg where
  fields : List (String × String)
  deriving DecidableEq, Repr

/-- `websocket.send_json({"status": s})` payload (views.py line 740). -/
def statusMessage (s : String) : JsonMsg := ⟨[("status", s)]⟩

/-- `starlette.status.WS_1008_POLICY_VIOLATION`. -/
def WS_1008_POLICY_VIOLATION : Nat := 1008

/-- The environment a websocket connection runs against: the database tables
and the authorization evaluator.

`auth tok` models `utils.AuthDependency(token=tok)(None,
SecurityScopes(["wallet_management"]))` — its implementation lives in
`utils.py`, outside the shown source, so it is kept abstract: `some user`
when both authentication and the scope check succeed, `none` when the
evaluator raises `HTTPException` (missing user, bad token, or insufficient
scope). -/
structure Env where
  auth : String → Option User
  users : List User
  wallets : List Wallet
  stores : List Store
  walletxstores : List WalletxStore
  invoices : List Invoice

/-! ## Parsing: Python `int(...)` on a path parameter -/

/-- Value of a decimal digit string, most significant first. -/
def digitsToNat (cs : List Char) : Nat :=
  cs.foldl (fun acc c => acc * 10 + (c.toNat - 48)) 0

/-- Strip leading and trailing whitespace, as Python `int` does. -/
def stripWhitespace (cs : List Char) : List Char :=
  ((cs.dropWhile Char.isWhitespace).reverse.dropWhile Char.isWhitespace).reverse

/-- Python `int(s)` on a decimal string: optional sign, then at least one
digit; anything else raises `ValueError`, modelled as `none`. -/
def pyInt? (s : String) : Option Int :=
  match stripWhitespace s.toList with
  | [] => none
  | c :: rest =>
    let signed : Bool × List Char :=
      if c = '-' then (true, rest)
      else if c = '+' then (false, rest)
      else (false, c :: rest)
    if signed.2 ≠ [] ∧ signed.2.all Char.isDigit then
      some (if signed.1 then -(digitsToNat signed.2 : Int) else (digitsToNat signed.2 : Int))
    else none

/-! ## Database lookups (the gino queries of views.py) -/

/-- `models.Wallet.query.select_from(get_wallet()).where(models.Wallet.id ==
wallet_id).gino.first()` (views.py lines 698-702): `get_wallet()` is
`models.User.join(models.Wallet)`, an inner join on the owner foreign key,
so the row is returned whenever the wallet exists and its owner row exists —
there is no filter on WHICH user owns it. -/
def lookupWallet (env : Env) (wid : Int) : Option Wallet :=
  (env.wallets.filter (fun w =>
    ((w.id : Int) == wid) && env.users.any (fun u => u.id == w.userId))).head?

/-- `models.Invoice.query.select_from(get_invoice()).where(models.Invoice.id
== invoice_id).gino.first()` (views.py lines 731-735): `get_invoice()` inner
joins Invoice → Store → WalletxStore → Wallet → User, so the row is returned
whenever the invoice exists with a complete owner chain. -/
def lookupInvoice (env : Env) (iid : Int) : Option Invoice :=
  (env.invoices.filter (fun inv =>
    ((inv.id : Int) == iid) && env.stores.any (fun s =>
      (s.id == inv.storeId) && env.walletxstores.any (fun x =>
        (x.storeId == s.id) && env.wallets.any (fun w =>
          (w.id == x.walletId) && env.users.any (fun u => u.id == w.userId)))))).head?

/-! ## Broker channel keys

`utils.make_subscriber(entity_id)` (outside the shown source) opens the redis
channel for the bare numeric entity id; the `on_disconnect` handlers in the
shown source unsubscribe from `f"channel:{self.wallet_id}"` (line 716) and
`f"channel:{self.invoice_id}"` (line 754), which fixes the key format. -/

/-- Channel key used by the wallet session (views.py lines 706, 716). -/
def walletChannelKey (wid : Int) : String := "channel:" ++ toString wid

/-- Channel key used by the invoice session (views.py lines 744, 754). -/
def invoiceChannelKey (iid : Int) : String := "channel:" ++ toString iid

/-- Modelled from the spec: the Notification Broker (§4.4, implemented by
`utils.make_subscriber` and the redis pub/sub backend, not under `src/`)
delivers every event published on a channel key to every subscriber of that
key, in publish order. `brokerDeliver published key` is the event sequence a
subscriber of `key` receives out of the publish log `published`. -/
def brokerDeliver (published : List (String × JsonMsg)) (key : String) : List JsonMsg :=
  (published.filter (fun p => p.1 == key)).map (fun p => p.2)

/-! ## WalletNotify (views.py lines 678-716) -/

/-- Result of `WalletNotify.on_connect`: either the socket was closed with a
close code before any subscription was made, or the session subscribed to the
channel of `walletId` on behalf of `user`, having resolved `wallet`. -/
inductive WalletConnectOutcome where
  | closed (code : Nat)
  | subscribed (walletId : Int) (user : User) (wallet : Wallet)
  deriving DecidableEq, Repr

/-- `WalletNotify.on_connect` (views.py lines 682-707), after `accept()`:
parse `path_params["model_id"]` with `int` and read
`query_params["token"]` — `ValueError`/`KeyError` close with 1008; then run
the auth evaluator — `HTTPException` closes with 1008; then resolve the
wallet — absence closes with 1008; otherwise `make_subscriber(wallet_id)`. -/
def walletOnConnect (env : Env) (pathParam : String) (tokenParam : Option String) :
    WalletConnectOutcome :=
  match pyInt? pathParam, tokenParam with
  | some wid, some tokStr =>
    match env.auth tokStr with
    | none => .closed WS_1008_POLICY_VIOLATION
    | some user =>
      match lookupWallet env wid with
      | none => .closed WS_1008_POLICY_VIOLATION
      | some wallet => .subscribed wid user wallet
  | _, _ => .closed WS_1008_POLICY_VIOLATION

/-- Number of broker subscriptions `on_connect` created (0 or 1). -/
def walletSubsCreated : WalletConnectOutcome → Nat
  | .subscribed _ _ _ => 1
  | .closed _ => 0

/-- The `self.subscriber` attribute after `on_connect`: the class default is
`None` (views.py line 680) and it is assigned only on the subscribe line
(706), so it carries the subscribed wallet id exactly when a handle exists. -/
def walletSubscriberField : WalletConnectOutcome → Option Int
  | .subscribed wid _ _ => some wid
  | .closed _ => none

/-- Broker registrations held by this session after `on_connect`. -/
def walletHeldAfterConnect : WalletConnectOutcome → List String
  | .subscribed wid _ _ => [walletChannelKey wid]
  | .closed _ => []

/-- `WalletNotify.on_disconnect` (views.py lines 714-716): if
`self.subscriber` is set, unsubscribe from `f"channel:{self.wallet_id}"`.
Returns the remaining registrations and the number of unsubscribe calls. -/
def walletOnDisconnect (subscriber : Option Int) (held : List String) :
    List String × Nat :=
  match subscriber with
  | some wid => (held.erase (walletChannelKey wid), 1)
  | none => (held, 0)

/-- `WalletNotify.poll_subs` (views.py lines 709-712): loop
`while wait_message(): send_json(get_json())`. The channel is modelled as the
finite sequence of messages it yields before `wait_message()` returns false
(transport close or broker handle end); `sent` accumulates the messages
passed to `websocket.send_json`, in call order. -/
def walletPollSubs (chan : List JsonMsg) (sent : List JsonMsg) : List JsonMsg :=
  match chan with
  | [] => sent
  | msg :: rest => walletPollSubs rest (sent ++ [msg])

/-- Broker registrations of a wallet session after its full lifetime:
`on_connect`, a relay of `events` (which touches no broker registration),
then `on_disconnect` — covering teardown at any point of the relay,
including an abort by remote disconnect while subscribed. -/
def walletFinalHeld (env : Env) (pathParam : String) (tokenParam : Option String)
    (events : List JsonMsg) : List String :=
  let o := walletOnConnect env pathParam tokenParam
  let _ := walletPollSubs events []
  (walletOnDisconnect (walletSubscriberField o) (walletHeldAfterConnect o)).1

/-- Number of `unsubscribe` calls issued by `on_disconnect` of a wallet
session over its full lifetime. -/
def walletUnsubCalls (env : Env) (pathParam : String) (tokenParam : Option String) : Nat :=
  let o := walletOnConnect env pathParam tokenParam
  (walletOnDisconnect (walletSubscriberField o) (walletHeldAfterConnect o)).2

/-! ## InvoiceNotify (views.py lines 719-754) -/

/-- Result of `InvoiceNotify.on_connect`: closed with a close code, or one
terminal-status message sent followed by a plain `close()` (normal close, no
subscription), or subscribed to the channel of `invoiceId`. -/
inductive InvoiceConnectOutcome where
  | closed (code : Nat)
  | terminalSent (msg : JsonMsg)
  | subscribed (invoiceId : Int) (invoice : Invoice)
  deriving DecidableEq, Repr

/-- `InvoiceNotify.on_connect` (views.py lines 723-745), after `accept()`:
parse the id (`ValueError`/`KeyError` close with 1008, no credential is
read); resolve the invoice (absence closes with 1008); a status other than
"Pending" sends `{"status": status}` and calls `close()` without
subscribing; otherwise `make_subscriber(invoice_id)`. The
`crud.get_invoice` enrichment on line 743 only loads related payment data
and does not affect the id, the status or the subscription. -/
def invoiceOnConnect (env : Env) (pathParam : String) : InvoiceConnectOutcome :=
  match pyInt? pathParam with
  | none => .closed WS_1008_POLICY_VIOLATION
  | some iid =>
    match lookupInvoice env iid with
    | none => .closed WS_1008_POLICY_VIOLATION
    | some inv =>
      if inv.status ≠ "Pending" then .terminalSent (statusMessage inv.status)
      else .subscribed iid inv

/-- Number of broker subscriptions `InvoiceNotify.on_connect` created. -/
def invoiceSubsCreated : InvoiceConnectOutcome → Nat
  | .subscribed _ _ => 1
  | _ => 0

/-- Messages sent by `InvoiceNotify.on_connect` itself. -/
def invoiceSentOnConnect : InvoiceConnectOutcome → List JsonMsg
  | .terminalSent msg => [msg]
  | _ => []

/-- The `self.subscriber` attribute after `InvoiceNotify.on_connect`
(class default `None`, line 721; assigned only on line 744). -/
def invoiceSubscriberField : InvoiceConnectOutcome → Option Int
  | .subscribed iid _ => some iid
  | _ => none

/-- Broker registrations held by an invoice session after `on_connect`. -/
def invoiceHeldAfterConnect : InvoiceConnectOutcome → List String
  | .subscribed iid _ => [invoiceChannelKey iid]
  | _ => []

/-- `InvoiceNotify.on_disconnect` (views.py lines 752-754). -/
def invoiceOnDisconnect (subscriber : Option Int) (held : List String) :
    List String × Nat :=
  match subscriber with
  | some iid => (held.erase (invoiceChannelKey iid), 1)
  | none => (held, 0)

/-- `InvoiceNotify.poll_subs` (views.py lines 747-750), textually identical
to the wallet relay loop. -/
def invoicePollSubs (chan : List JsonMsg) (sent : List JsonMsg) : List JsonMsg :=
  match chan with
  | [] => sent
  | msg :: rest => invoicePollSubs rest (sent ++ [msg])

/-- Broker registrations of an invoice session after its full lifetime. -/
def invoiceFinalHeld (env : Env) (pathParam : String) (events : List JsonMsg) :
    List String :=
  let o := invoiceOnConnect env pathParam
  let _ := invoicePollSubs events []
  (invoiceOnDisconnect (invoiceSubscriberField o) (invoiceHeldAfterConnect o)).1

/-- Number of `unsubscribe` calls issued by an invoice session. -/
def invoiceUnsubCalls (env : Env) (pathParam : String) : Nat :=
  let o := invoiceOnConnect env pathParam
  (invoiceOnDisconnect (invoiceSubscriberField o) (invoiceHeldAfterConnect o)).2

/-! ## create_token (views.py lines 587-622) -/

/-- How the `create_token` request authenticated, mirroring lines 592-602:
the `AuthDependency` path yields the acting user together with the token
used (`viaToken`); on `HTTPException` the email/password fallback either
yields a user with `token = None` (`viaLogin`) or fails (`loginFailed`,
raised as a 401). -/
inductive TokenAuth where
  | viaToken (user : User) (token : Token)
  | viaLogin (user : User)
  | loginFailed (status : String)
  deriving Repr

/-- Outcome of `create_token`: the permission list stored on the created
token row, or the `HTTPException` raised. -/
inductive CreateTokenResult where
  | created (permissions : List String)
  | httpError (status : Nat) (detail : String)
  deriving DecidableEq, Repr

/-- Lines 611-614: `if token and not "full_control" in token.permissions:`
every requested permission must be in the grantor token's permissions, else
403. With no token (password login) the check is skipped entirely, and a
grantor token carrying "full_control" also skips it. The surviving request
reaches `models.Token.create` with exactly the checked permission list. -/
def scopeCheck (tokOpt : Option Token) (perms : List String) : CreateTokenResult :=
  match tokOpt with
  | none => .created perms
  | some tok =>
    if "full_control" ∈ tok.permissions then .created perms
    else if ∀ p ∈ perms, p ∈ tok.permissions then .created perms
    else .httpError 403 "Not enough permissions"

/-- Lines 603-617 of `create_token`, after authentication resolved `user`
and `tokOpt`: if the request names "server_management" and the user is not a
superuser, strict mode raises 422, non-strict mode removes the first
occurrence of "server_management" (Python `list.remove`) before the grantor
scope check. -/
def createTokenAuthed (user : User) (tokOpt : Option Token) (perms : List String)
    (strict : Bool) : CreateTokenResult :=
  if "server_management" ∈ perms ∧ user.isSuperuser = false then
    if strict then .httpError 422 "This application requires access to server settings"
    else scopeCheck tokOpt (perms.erase "server_management")
  else scopeCheck tokOpt perms

/-- `create_token` (views.py lines 587-622) over a resolved authentication
outcome and the request body's `permissions` and `strict` fields. -/
def create_token (auth : TokenAuth) (perms : List String) (strict : Bool) :
    CreateTokenResult :=
  match auth with
  | .loginFailed status => .httpError 401 status
  | .viaToken user tok => createTokenAuthed user (some tok) perms strict
  | .viaLogin user => createTokenAuthed user none perms strict

/-! ## Constraint-violation translation (create_product, patch_token) -/

/-- A product row (only identity matters for the embedded handlers). -/
structure Product where
  id : Nat
  deriving DecidableEq, Repr

/-- Result of one persistence call: success, or one of the three asyncpg
constraint exceptions caught by views.py (`UniqueViolationError`,
`NotNullViolationError`, `ForeignKeyViolationError`), carrying `e.message`. -/
inductive DbResult (α : Type) where
  | ok (val : α)
  | uniqueViolation (message : String)
  | notNullViolation (message : String)
  | foreignKeyViolation (message : String)
  deriving DecidableEq, Repr

/-- Whether a persistence result is one of the three caught constraint
violations with message `m`. -/
def isConstraintViolation {α : Type} (r : DbResult α) (m : String) : Prop :=
  r = .uniqueViolation m ∨ r = .notNullViolation m ∨ r = .foreignKeyViolation m

/-- An HTTP-level outcome: the returned object or the raised HTTPException. -/
inductive HttpResult (α : Type) where
  | ok (val : α)
  | error (status : Nat) (detail : String)
  deriving DecidableEq, Repr

/-- The persistence part of `create_product` (views.py lines 175-197): the
try block issues its write sequence once (`db` is the result of attempt `n`;
the handler only ever performs attempt 0) and any of the three constraint
exceptions is re-raised as `HTTPException(422, e.message)`. Returns the
response and the number of persistence attempts issued. -/
def create_product (db : Nat → DbResult Product) : HttpResult Product × Nat :=
  match db 0 with
  | .ok p => (.ok p, 1)
  | .uniqueViolation m => (.error 422 m, 1)
  | .notNullViolation m => (.error 422 m, 1)
  | .foreignKeyViolation m => (.error 422 m, 1)

/-- The token lookup of `patch_token` (views.py lines 549-553):
`models.Token.query.where(user_id == user.id).where(id == model_id).first()`. -/
def tokenLookup (tokens : List Token) (userId : Nat) (modelId : String) : Option Token :=
  (tokens.filter (fun t => (t.userId == userId) && (t.id == modelId))).head?

/-- `patch_token` (views.py lines 543-566): 404 when the token is absent (no
persistence write is attempted), otherwise one `update(...).apply()` whose
constraint exceptions become `HTTPException(422, e.message)`. Returns the
response and the number of persistence attempts issued. -/
def patch_token (tokens : List Token) (userId : Nat) (modelId : String)
    (db : Nat → DbResult Unit) : HttpResult Token × Nat :=
  match tokenLookup tokens userId modelId with
  | none => (.error 404 ("Token with id " ++ modelId ++ " does not exist!"), 0)
  | some item =>
    match db 0 with
    | .ok _ => (.ok item, 1)
    | .uniqueViolation m => (.error 422 m, 1)
    | .notNullViolation m => (.error 422 m, 1)
    | .foreignKeyViolation m => (.error 422 m, 1)

/-! ## Concrete scenario data (used by counterexamples and witnesses) -/

/-- Identity that owns the concrete wallet below. -/
def ownerUser : User := { id := 1, isSuperuser := false }

/-- A distinct, non-superuser identity that does not own the wallet. -/
def intruderUser : User := { id := 2, isSuperuser := false }

/-- A wallet owned by `ownerUser`. -/
def walletTen : Wallet := { id := 10, userId := 1 }

/-- Environment in which `intruderUser` holds a credential passing the
wallet-management authorization check, while all other credentials fail. -/
def intruderEnv : Env :=
  { auth := fun t => if t = "intruder-token" then some intruderUser else none
    users := [ownerUser, intruderUser]
    wallets := [walletTen]
    stores := []
    walletxstores := []
    invoices := [] }

/-- An invoice in the terminal status "Paid", with a complete owner chain. -/
def paidInvoice : Invoice := { id := 5, storeId := 3, status := "Paid" }

/-- Environment holding `paidInvoice` and its owner chain. -/
def paidInvoiceEnv : Env :=
  { auth := fun _ => none
    users := [ownerUser]
    wallets := [walletTen]
    stores := [{ id := 3 }]
    walletxstores := [{ walletId := 10, storeId := 3 }]
    invoices := [paidInvoice] }

/-- A non-superuser grantor token carrying only "full_control". -/
def fullControlToken : Token := { id := "fc", userId := 2, permissions := ["full_control"] }

/-- A superuser identity. -/
def superUser : User := { id := 3, isSuperuser := true }

/-- A limited token held by the superuser (no "full_control"). -/
def superLimitedToken : Token :=
  { id := "lim", userId := 3, permissions := ["token_management"] }

/-- A persistence stub whose product insert hits a uniqueness constraint. -/
def cvProductDb : Nat → DbResult Product := fun _ => .uniqueViolation "duplicate key"

/-- A persistence stub whose token update hits a foreign-key constraint. -/
def cvTokenDb : Nat → DbResult Unit := fun _ => .foreignKeyViolation "fk violated"

/-- An existing token row targeted by the concrete `patch_token` scenario. -/
def cvToken : Token := { id := "tk", userId := 7, permissions := [] }

/-! ## Theorems -/

/-- Tail-recursive relay loops append the channel script to what was
already sent. -/
theorem walletPollSubs_append (chan sent : List JsonMsg) :
    walletPollSubs chan sent = sent ++ chan := by
  induction chan generalizing sent with
  | nil => simp [walletPollSubs]
  | cons m rest ih => simp [walletPollSubs, ih]

/-- Invoice-side analogue of `walletPollSubs_append`. -/
theorem invoicePollSubs_append (chan sent : List JsonMsg) :
    invoicePollSubs chan sent = sent ++ chan := by
  induction chan generalizing sent with
  | nil => simp [invoicePollSubs]
  | cons m rest ih => simp [invoicePollSubs, ih]

/-- C1 counterexample: an authenticated identity (`intruderUser`) that does
NOT own wallet 10 connects to the wallet-notification endpoint and the
session subscribes instead of closing with a policy violation — the wallet
query of `WalletNotify.on_connect` has no owner filter, so ownership is not
enforced. -/
theorem walletNotify_ownership_cex :
    walletOnConnect intruderEnv "10" (some "intruder-token")
      = .subscribed 10 intruderUser walletTen
    ∧ walletTen.userId ≠ intruderUser.id
    ∧ intruderUser.isSuperuser = false
    ∧ walletSubsCreated (walletOnConnect intruderEnv "10" (some "intruder-token")) = 1 := by
  decide

/-- C1 (amended): ownership is not enforced on the wallet-notification
endpoint. Whenever the id parses, the credential passes the
wallet-management authorization check and the wallet exists, the session
subscribes — regardless of whether the authenticated identity owns the
wallet; policy-violation closes happen only on malformed input, failed
authorization, or a missing wallet. -/
theorem walletNotify_subscribes_without_ownership (env : Env) (path tokStr : String)
    (wid : Int) (user : User) (wallet : Wallet)
    (hp : pyInt? path = some wid)
    (ha : env.auth tokStr = some user)
    (hw : lookupWallet env wid = some wallet) :
    walletOnConnect env path (some tokStr) = .subscribed wid user wallet := by
  unfold walletOnConnect
  rw [hp]
  simp [ha, hw]

/-- Witness for `walletNotify_subscribes_without_ownership` at the concrete
non-owner scenario. -/
theorem walletNotify_subscribes_without_ownership_witness :
    walletOnConnect intruderEnv "10" (some "intruder-token")
      = .subscribed 10 intruderUser walletTen :=
  walletNotify_subscribes_without_ownership intruderEnv "10" "intruder-token" 10
    intruderUser walletTen (by decide) (by decide) (by decide)

/-- C2 counterexample: (a) a non-superuser grantor whose token carries only
"full_control" creates a token with scope "wallet_management", which is not
a subset of the grantor token's scopes; (b) a superuser whose own token is
limited and lacks "full_control" is refused a scope outside it with 403, so
superuser status does not allow an arbitrary scope set. -/
theorem create_token_scope_cex :
    (create_token (.viaToken intruderUser fullControlToken) ["wallet_management"] false
        = .created ["wallet_management"]
      ∧ intruderUser.isSuperuser = false
      ∧ ¬ ("wallet_management" ∈ fullControlToken.permissions))
    ∧ create_token (.viaToken superUser superLimitedToken) ["store_management"] false
        = .httpError 403 "Not enough permissions" := by
  decide

/-- C2 (amended): for every token successfully created through token-based
authentication, the created scopes are a subset of the grantor token's
scopes, unless the grantor's token carries "full_control" (password login
bypasses the check since no token is presented); superuser status does not
by itself bypass this subset check. -/
theorem create_token_subset_of_grantor (user : User) (tok : Token)
    (perms res : List String) (strict : Bool)
    (hfc : "full_control" ∉ tok.permissions)
    (h : create_token (.viaToken user tok) perms strict = .created res) :
    ∀ p ∈ res, p ∈ tok.permissions := by
  simp only [create_token, createTokenAuthed, scopeCheck] at h
  simp only [if_neg hfc] at h
  split_ifs at h
  all_goals
    rename_i hall
    injection h with hres
    subst hres
    exact hall

/-- Witness for `create_token_subset_of_grantor`: the superuser's limited
token grants a subset of its own scopes. -/
theorem create_token_subset_of_grantor_witness :
    "token_management" ∈ superLimitedToken.permissions :=
  create_token_subset_of_grantor superUser superLimitedToken
    ["token_management"] ["token_management"] false (by decide) (by decide)
    "token_management" (by decide)

/-- C3: a non-superuser request naming the reserved "server_management"
scope fails with 422 (InvalidScope) under `strict=true` — no token row is
created — and under `strict=false` the scope is removed (Python
`list.remove`, first occurrence) and creation proceeds through the grantor
scope check with the remaining scopes. -/
theorem create_token_reserved_scope (user : User) (tokOpt : Option Token)
    (perms : List String)
    (hsu : user.isSuperuser = false)
    (hmem : "server_management" ∈ perms) :
    createTokenAuthed user tokOpt perms true
        = .httpError 422 "This application requires access to server settings"
    ∧ createTokenAuthed user tokOpt perms false
        = scopeCheck tokOpt (perms.erase "server_management") := by
  constructor <;> simp [createTokenAuthed, hmem, hsu]

/-- Witness for `create_token_reserved_scope` at a concrete login-based
request. -/
theorem create_token_reserved_scope_witness :
    createTokenAuthed intruderUser none ["server_management", "token_management"] true
        = .httpError 422 "This application requires access to server settings"
    ∧ createTokenAuthed intruderUser none ["server_management", "token_management"] false
        = scopeCheck none
            (["server_management", "token_management"].erase "server_management") :=
  create_token_reserved_scope intruderUser none ["server_management", "token_management"]
    (by decide) (by decide)

/-- C4: for every environment, handshake input and relay script, once the
session ends (`on_disconnect`) it holds no broker registration — the
unsubscribe runs on every exit path (including an abort during the relay,
which never touches the registrations) — and the cleanup is a no-op (zero
unsubscribe calls) exactly when no handle was ever obtained. -/
theorem session_cleanup_on_close (env : Env) (path : String) (tokOpt : Option String)
    (events : List JsonMsg) :
    walletFinalHeld env path tokOpt events = []
    ∧ walletUnsubCalls env path tokOpt
        = (if (walletSubscriberField (walletOnConnect env path tokOpt)).isNone
             then 0 else 1)
    ∧ invoiceFinalHeld env path events = []
    ∧ invoiceUnsubCalls env path
        = (if (invoiceSubscriberField (invoiceOnConnect env path)).isNone
             then 0 else 1) := by
  refine ⟨?_, ?_, ?_, ?_⟩
  · unfold walletFinalHeld
    cases walletOnConnect env path tokOpt <;>
      simp [walletSubscriberField, walletHeldAfterConnect, walletOnDisconnect]
  · unfold walletUnsubCalls
    cases walletOnConnect env path tokOpt <;>
      simp [walletSubscriberField, walletHeldAfterConnect, walletOnDisconnect]
  · unfold invoiceFinalHeld
    cases invoiceOnConnect env path <;>
      simp [invoiceSubscriberField, invoiceHeldAfterConnect, invoiceOnDisconnect]
  · unfold invoiceUnsubCalls
    cases invoiceOnConnect env path <;>
      simp [invoiceSubscriberField, invoiceHeldAfterConnect, invoiceOnDisconnect]

/-- C5: connecting to the invoice-notification endpoint for an existing
invoice whose status is not "Pending" sends exactly one message carrying the
terminal status, then closes immediately, and creates zero broker
subscriptions. -/
theorem invoiceNotify_terminal_status (env : Env) (path : String) (iid : Int)
    (inv : Invoice)
    (hp : pyInt? path = some iid)
    (hl : lookupInvoice env iid = some inv)
    (hs : inv.status ≠ "Pending") :
    invoiceOnConnect env path = .terminalSent (statusMessage inv.status)
    ∧ invoiceSentOnConnect (invoiceOnConnect env path) = [statusMessage inv.status]
    ∧ invoiceSubsCreated (invoiceOnConnect env path) = 0 := by
  have h : invoiceOnConnect env path = .terminalSent (statusMessage inv.status) := by
    unfold invoiceOnConnect
    rw [hp]
    simp [hl, hs]
  exact ⟨h, by rw [h]; rfl, by rw [h]; rfl⟩

/-- Witness for `invoiceNotify_terminal_status` at the concrete "Paid"
invoice. -/
theorem invoiceNotify_terminal_status_witness :
    invoiceOnConnect paidInvoiceEnv "5" = .terminalSent (statusMessage paidInvoice.status)
    ∧ invoiceSentOnConnect (invoiceOnConnect paidInvoiceEnv "5")
        = [statusMessage paidInvoice.status]
    ∧ invoiceSubsCreated (invoiceOnConnect paidInvoiceEnv "5") = 0 :=
  invoiceNotify_terminal_status paidInvoiceEnv "5" 5 paidInvoice
    (by decide) (by decide) (by decide)

/-- C6: a wallet-notification connection with a well-formed wallet id whose
credential is missing or fails the authorization check closes with the
policy-violation code 1008 and creates no broker subscription. -/
theorem walletNotify_bad_credential_closes (env : Env) (path : String)
    (tokOpt : Option String) (wid : Int)
    (hp : pyInt? path = some wid)
    (hbad : tokOpt = none ∨ ∃ t, tokOpt = some t ∧ env.auth t = none) :
    walletOnConnect env path tokOpt = .closed WS_1008_POLICY_VIOLATION
    ∧ walletSubsCreated (walletOnConnect env path tokOpt) = 0 := by
  have h : walletOnConnect env path tokOpt = .closed WS_1008_POLICY_VIOLATION := by
    rcases hbad with hnone | ⟨t, ht, ha⟩
    · subst hnone
      unfold walletOnConnect
      rw [hp]
    · subst ht
      unfold walletOnConnect
      rw [hp]
      simp [ha]
  exact ⟨h, by rw [h]; rfl⟩

/-- Witness for `walletNotify_bad_credential_closes` with a credential the
evaluator rejects. -/
theorem walletNotify_bad_credential_closes_witness :
    walletOnConnect intruderEnv "10" (some "bad") = .closed WS_1008_POLICY_VIOLATION
    ∧ walletSubsCreated (walletOnConnect intruderEnv "10" (some "bad")) = 0 :=
  walletNotify_bad_credential_closes intruderEnv "10" (some "bad") 10
    (by decide) (Or.inr ⟨"bad", rfl, by decide⟩)

/-- C7: a handshake whose entity id does not parse as an integer closes both
endpoints with the policy-violation code before anything else happens — the
outcome is the same for EVERY environment (so no authentication or lookup is
consulted) and no subscription is created; on the wallet endpoint an absent
credential parameter likewise closes the session for every environment and
every path. -/
theorem notify_malformed_handshake (path : String) (hp : pyInt? path = none) :
    (∀ env : Env, ∀ tokOpt : Option String,
        walletOnConnect env path tokOpt = .closed WS_1008_POLICY_VIOLATION
        ∧ walletSubsCreated (walletOnConnect env path tokOpt) = 0)
    ∧ (∀ env : Env, ∀ p : String,
        walletOnConnect env p none = .closed WS_1008_POLICY_VIOLATION
        ∧ walletSubsCreated (walletOnConnect env p none) = 0)
    ∧ (∀ env : Env,
        invoiceOnConnect env path = .closed WS_1008_POLICY_VIOLATION
        ∧ invoiceSubsCreated (invoiceOnConnect env path) = 0) := by
  refine ⟨fun env tokOpt => ?_, fun env p => ?_, fun env => ?_⟩
  · have h : walletOnConnect env path tokOpt = .closed WS_1008_POLICY_VIOLATION := by
      unfold walletOnConnect
      rw [hp]
    exact ⟨h, by rw [h]; rfl⟩
  · have h : walletOnConnect env p none = .closed WS_1008_POLICY_VIOLATION := by
      unfold walletOnConnect
      cases hq : pyInt? p <;> rfl
    exact ⟨h, by rw [h]; rfl⟩
  · have h : invoiceOnConnect env path = .closed WS_1008_POLICY_VIOLATION := by
      unfold invoiceOnConnect
      rw [hp]
    exact ⟨h, by rw [h]; rfl⟩

/-- Witness for `notify_malformed_handshake` on the unparseable id "abc". -/
theorem notify_malformed_handshake_witness :
    walletOnConnect intruderEnv "abc" none = .closed WS_1008_POLICY_VIOLATION
    ∧ invoiceOnConnect paidInvoiceEnv "abc" = .closed WS_1008_POLICY_VIOLATION :=
  ⟨((notify_malformed_handshake "abc" (by decide)).1 intruderEnv none).1,
   ((notify_malformed_handshake "abc" (by decide)).2.2 paidInvoiceEnv).1⟩

/-- C8: both relay loops forward every event received on the channel to the
transport verbatim and in order, running until the channel yields no further
message: the sent sequence equals the received sequence exactly. -/
theorem poll_subs_relays_verbatim (events : List JsonMsg) :
    walletPollSubs events [] = events ∧ invoicePollSubs events [] = events := by
  constructor
  · simpa using walletPollSubs_append events []
  · simpa using invoicePollSubs_append events []

/-- C9: broker channel identity is the bare numeric entity id, independent
of entity kind — for equal numeric ids the wallet and invoice sessions use
the same channel key, the broker delivers the same event sequence to either,
a wallet session's registration is literally the invoice channel key for
that number, and a wallet unsubscribe removes an invoice-keyed
registration. -/
theorem channel_identity_by_numeric_id (n : Int) (published : List (String × JsonMsg))
    (u : User) (w : Wallet) (inv : Invoice) :
    walletChannelKey n = invoiceChannelKey n
    ∧ brokerDeliver published (walletChannelKey n)
        = brokerDeliver published (invoiceChannelKey n)
    ∧ walletHeldAfterConnect (.subscribed n u w) = [invoiceChannelKey n]
    ∧ invoiceHeldAfterConnect (.subscribed n inv) = [walletChannelKey n]
    ∧ (walletOnDisconnect (some n) [invoiceChannelKey n]).1 = [] := by
  refine ⟨rfl, rfl, rfl, rfl, ?_⟩
  simp [walletOnDisconnect, walletChannelKey, invoiceChannelKey]

/-- C10: when the persistence layer reports a uniqueness, not-null or
foreign-key violation during a conventional mutation (`create_product`
insert, `patch_token` update), the handler responds 422 with the underlying
constraint message as detail and issues exactly one persistence attempt (no
retry). -/
theorem constraint_violation_translated (dbP : Nat → DbResult Product)
    (tokens : List Token) (userId : Nat) (modelId : String)
    (dbT : Nat → DbResult Unit) (item : Token) (mp mt : String)
    (hP : isConstraintViolation (dbP 0) mp)
    (hfound : tokenLookup tokens userId modelId = some item)
    (hT : isConstraintViolation (dbT 0) mt) :
    create_product dbP = (.error 422 mp, 1)
    ∧ patch_token tokens userId modelId dbT = (.error 422 mt, 1) := by
  constructor
  · unfold create_product
    rcases hP with h | h | h <;> rw [h]
  · unfold patch_token
    rw [hfound]
    rcases hT with h | h | h <;> rw [h]

/-- Witness for `constraint_violation_translated` at concrete failing
persistence stubs. -/
theorem constraint_violation_translated_witness :
    create_product cvProductDb = (.error 422 "duplicate key", 1)
    ∧ patch_token [cvToken] 7 "tk" cvTokenDb = (.error 422 "fk violated", 1) :=
  constraint_violation_translated cvProductDb [cvToken] 7 "tk" cvTokenDb cvToken
    "duplicate key" "fk violated" (Or.inl rfl) (by decide) (Or.inr (Or.inr rfl))

end BitcartViews
